import Mathlib

/-!
Shallow embedding of the retrieval-and-relevance pipeline of the
learning-coach MCP server (`src/rag/digest_generator.py`,
`src/utils/groq_client.py`, `src/server.py`).

External effects (the embedding model, the vector store, the Groq
generation service, the clock and the ISO-8601 date parser, the
database) are modelled as an explicit environment of oracle functions;
the Python functions themselves are translated into pure Lean
functions over rationals, strings and lists.
-/

namespace LearningCoach

/-- The learner context built in `generate_daily_digest` from the stored
user progress: `current_week`, `current_topics`, `learning_goals`. -/
structure UserContext where
  current_week : Nat
  current_topics : List String
  learning_goals : String
deriving DecidableEq, Repr

/-- A content item as returned by the vector store
(`search_content_by_embedding`): the dictionary fields the pipeline
reads.  `similarity` is `none` when the `"similarity"` key is absent;
`published` is the `metadata.published` string (`""` when absent). -/
structure ContentItem where
  id : Option Nat
  title : String
  content : String
  source_url : String
  similarity : Option ℚ
  published : String
deriving DecidableEq, Repr

/-- A record of one call to `db.search_content_by_embedding`:
the `limit` and `similarity_threshold` arguments passed. -/
structure SearchCall where
  limit : Nat
  threshold : ℚ
deriving DecidableEq, Repr

/-- The insight dictionary built in `generate_insights_from_content`. -/
structure Insight where
  insight : String
  content_id : Option Nat
  title : String
  source_url : String
  relevance_score : ℚ
  similarity_score : ℚ
  metadata_published : String
deriving DecidableEq, Repr

/-- The digest dictionary returned by
`DigestGenerator.generate_daily_digest`.  The empty-retrieval branch
returns a dictionary without `week`/`topics`/`total_insights` keys,
modelled by `none`/`[]`. -/
structure Digest where
  date : String
  week : Option Nat
  topics : List String
  summary : String
  insights : List Insight
  total_insights : Option Nat
deriving DecidableEq, Repr

/-- The structured result of the `generate_daily_digest` MCP tool in
`server.py`: a success flag with either a digest or an error string. -/
structure ServerResult where
  success : Bool
  digest : Option Digest
  error : Option String
deriving DecidableEq, Repr

/-- The environment of external effects consumed by the pipeline:
* `embed` — the sentence-transformer embedding of a text;
* `search` — the vector store: query embedding, limit, threshold;
* `generate_insight` — Groq insight generation for a content string and
  context; `none` models the call raising an exception (caught and
  skipped per candidate in `generate_insights_from_content`);
* `relevance_reply` — the numeric value parsed by Python `float` from
  the Groq topic-relevance reply for a content prefix and topic list;
  `none` models a reply that does not parse (`ValueError`);
* `parseDays` — the age in whole days, `now - fromisoformat(s)`, of a
  publication timestamp; `none` models a parse exception;
* `digest_summary` — Groq summary generation from insight texts;
* `now` — `datetime.utcnow().isoformat()`. -/
structure Env where
  embed : String → List ℚ
  search : List ℚ → Nat → ℚ → List ContentItem
  generate_insight : String → UserContext → Option String
  relevance_reply : String → List String → Option ℚ
  parseDays : String → Option ℤ
  digest_summary : List String → UserContext → String
  now : String

/-- Python `round` to the nearest integer: round-half-to-even. -/
def roundHalfEven (x : ℚ) : ℤ :=
  if x - ⌊x⌋ < 1/2 then ⌊x⌋
  else if 1/2 < x - ⌊x⌋ then ⌊x⌋ + 1
  else if ⌊x⌋ % 2 = 0 then ⌊x⌋ else ⌊x⌋ + 1

/-- Python `round(x, 3)`: round to three decimal places, ties to even. -/
def round3 (x : ℚ) : ℚ :=
  (roundHalfEven (1000 * x) : ℚ) / 1000

namespace Py

/-- Worker for `Py.split`: scan the character list left to right,
splitting at each non-overlapping occurrence of the separator.  The
fuel argument (initially the length of the list) makes the recursion
structural; with a non-empty separator it never runs out. -/
def splitCore (sep : List Char) : Nat → List Char → List Char → List (List Char)
  | _, [], acc => [acc.reverse]
  | 0, l, acc => [acc.reverse ++ l]
  | fuel + 1, c :: rest, acc =>
    if sep.isPrefixOf (c :: rest) then
      acc.reverse :: splitCore sep fuel ((c :: rest).drop sep.length) []
    else splitCore sep fuel rest (c :: acc)

/-- Python `s.split(sep)` for a non-empty separator: the list of
segments between non-overlapping occurrences of `sep`, scanned left to
right; it has more than one element exactly when `sep` occurs in `s`. -/
def split (s sep : String) : List String :=
  (splitCore sep.toList s.toList.length s.toList []).map List.asString

/-- Python `s.strip()`: remove whitespace from both ends. -/
def strip (s : String) : String :=
  (((s.toList.dropWhile Char.isWhitespace).reverse.dropWhile Char.isWhitespace).reverse).asString

end Py

namespace GroqClient

/-- `GroqClient._extract_final_output`: strip a `<think>…</think>`
reasoning segment from a raw model reply, keeping only the content
after the last end marker.  `1 < (Py.split text m).length` models the
Python membership test `m in text`. -/
def extract_final_output (text : String) : String :=
  if 1 < (Py.split text "</think>").length then
    if Py.strip ((Py.split text "</think>").getLastD "") ≠ "" then
      Py.strip ((Py.split text "</think>").getLastD "")
    else "Error: Model only generated thinking process, no insight produced."
  else if 1 < (Py.split text "<think>").length then
    "Error: Incomplete response - thinking process not finished."
  else Py.strip text

/-- `GroqClient.score_content_relevance`, after the external call:
the reply parsed as a float (`parsed`) is clamped into `[0, 1]`;
a `ValueError` (`parsed = none`) yields the neutral default `0.5`. -/
def score_content_relevance (parsed : Option ℚ) : ℚ :=
  match parsed with
  | some score => max 0 (min 1 score)
  | none => 1/2

end GroqClient

namespace DigestGenerator

/-- The query text of `retrieve_relevant_content`:
`" ".join(user_context.get("current_topics", []))`. -/
def queryText (ctx : UserContext) : String :=
  String.intercalate " " ctx.current_topics

/-- `DigestGenerator.retrieve_relevant_content`: search the store at
threshold `0.25` with the requested limit; when that returns nothing,
one single retry at threshold `0.15`.  Returns the retrieved items
together with the trace of store searches issued. -/
def retrieve_relevant_content (env : Env) (ctx : UserContext) (top_k : Nat) :
    List ContentItem × List SearchCall :=
  if queryText ctx = "" then ([], [])
  else if (env.search (env.embed (queryText ctx)) top_k (1/4)).length = 0 then
    (env.search (env.embed (queryText ctx)) top_k (3/20),
     [⟨top_k, 1/4⟩, ⟨top_k, 3/20⟩])
  else
    (env.search (env.embed (queryText ctx)) top_k (1/4), [⟨top_k, 1/4⟩])

/-- The age step function inside `DigestGenerator._calculate_freshness`
(the branch reached once `days_old` has been computed). -/
def freshnessOfAge (days_old : ℤ) : ℚ :=
  if days_old ≤ 0 then 1
  else if days_old ≤ 7 then 9/10
  else if days_old ≤ 30 then 7/10
  else if days_old ≤ 90 then 2/5
  else 1/5

/-- `DigestGenerator._calculate_freshness`: `0.5` for an empty
publication string, `0.5` when parsing raises, otherwise the age step
function of `days_old`. -/
def calculate_freshness (parseDays : String → Option ℤ) (published_date : String) : ℚ :=
  if published_date = "" then 1/2
  else
    match parseDays published_date with
    | none => 1/2
    | some days_old => freshnessOfAge days_old

/-- `DigestGenerator._calculate_relevance_score`: weighted fusion of the
similarity (default `0.5` when absent), the Groq topic relevance of the
first 500 characters, and the freshness of the publication date,
rounded to three decimals. -/
def calculate_relevance_score (env : Env) (ctx : UserContext) (item : ContentItem) : ℚ :=
  round3 (2/5 * item.similarity.getD (1/2)
    + 2/5 * GroqClient.score_content_relevance
        (env.relevance_reply (item.content.take 500) ctx.current_topics)
    + 1/5 * calculate_freshness env.parseDays item.published)

/-- The body of the loop in `generate_insights_from_content` for one
content item: generate the insight text and the relevance score and
build the insight record; `none` when the generation call raises (the
candidate is then skipped). -/
def insight_of (env : Env) (ctx : UserContext) (item : ContentItem) : Option Insight :=
  match env.generate_insight item.content ctx with
  | none => none
  | some insight_text =>
    some
      { insight := insight_text
        content_id := item.id
        title := item.title
        source_url := item.source_url
        relevance_score := calculate_relevance_score env ctx item
        similarity_score := item.similarity.getD 0
        metadata_published := item.published }

/-- The comparison used to model `insights.sort(key=relevance_score,
reverse=True)` (a stable sort): `a` may precede `b` when `a`'s
relevance score is at least `b`'s. -/
def relDesc (a b : Insight) : Bool :=
  decide (b.relevance_score ≤ a.relevance_score)

/-- `DigestGenerator.generate_insights_from_content`: build an insight
for each of the first `max_insights` items (skipping failures), then
stable-sort by relevance score, descending. -/
def generate_insights_from_content (env : Env) (content_items : List ContentItem)
    (ctx : UserContext) (max_insights : Nat) : List Insight :=
  ((content_items.take max_insights).filterMap (insight_of env ctx)).mergeSort relDesc

end DigestGenerator

/-- The terminal digest returned when retrieval yields no content. -/
def emptyDigest (env : Env) : Digest :=
  { date := env.now
    week := none
    topics := []
    summary := "No relevant content found for your topics today."
    insights := []
    total_insights := none }

namespace DigestGenerator

/-- `DigestGenerator.generate_daily_digest`: raise when no progress is
stored; retrieve `2 × num_insights` candidates; return the terminal
empty digest when retrieval yields nothing; otherwise generate, sort
and summarize the insights. -/
def generate_daily_digest (env : Env) :
    Option UserContext → Nat → Except String Digest
  | none, _ =>
    .error "No progress found. Please set your learning progress first using update_progress."
  | some ctx, num_insights =>
    if ((retrieve_relevant_content env ctx (num_insights * 2)).1).length = 0 then
      .ok (emptyDigest env)
    else
      .ok
        { date := env.now
          week := some ctx.current_week
          topics := ctx.current_topics
          summary := env.digest_summary
            ((generate_insights_from_content env
              (retrieve_relevant_content env ctx (num_insights * 2)).1 ctx
              num_insights).map (·.insight)) ctx
          insights := generate_insights_from_content env
            (retrieve_relevant_content env ctx (num_insights * 2)).1 ctx num_insights
          total_insights := some (generate_insights_from_content env
            (retrieve_relevant_content env ctx (num_insights * 2)).1 ctx
            num_insights).length }

end DigestGenerator

/-- The `generate_daily_digest` MCP tool of `server.py`: wrap the
generator's result into a structured success/error payload. -/
def server_generate_daily_digest (env : Env) (user_progress : Option UserContext)
    (num_insights : Nat) : ServerResult :=
  match DigestGenerator.generate_daily_digest env user_progress num_insights with
  | .ok digest => { success := true, digest := some digest, error := none }
  | .error e => { success := false, digest := none, error := some e }

/-! ### Concrete fixtures used by the witness theorems -/

/-- A concrete learner context for witnesses. -/
def testCtx : UserContext :=
  { current_week := 3, current_topics := ["transformers", "attention"], learning_goals := "" }

/-- A concrete content item (with a similarity score) for witnesses. -/
def testItem : ContentItem :=
  { id := some 1, title := "Attention Is All You Need", content := "transformer architectures",
    source_url := "https://example.org/a", similarity := some (3/5), published := "2026-01-01" }

/-- A concrete environment in which every external call succeeds. -/
def testEnv : Env :=
  { embed := fun _ => [1, 0]
    search := fun _ _ _ => [testItem]
    generate_insight := fun _ _ => some "Study attention."
    relevance_reply := fun _ _ => some (7/10)
    parseDays := fun _ => some 3
    digest_summary := fun _ _ => "Summary."
    now := "2026-10-12T00:00:00" }

/-! ### Rounding lemmas -/

theorem roundHalfEven_ge {x : ℚ} {n : ℤ} (h : (n : ℚ) ≤ x) : n ≤ roundHalfEven x := by
  have hf : n ≤ ⌊x⌋ := Int.le_floor.mpr h
  unfold roundHalfEven
  split_ifs <;> omega

theorem roundHalfEven_le {x : ℚ} {n : ℤ} (h : x ≤ (n : ℚ)) : roundHalfEven x ≤ n := by
  have hf : ⌊x⌋ ≤ n := by
    have := Int.floor_le_floor (α := ℚ) h
    simpa using this
  unfold roundHalfEven
  split_ifs with h1 h2 h3
  · exact hf
  · -- here `x - ⌊x⌋ > 1/2`, so `⌊x⌋ < x ≤ n`, hence `⌊x⌋ + 1 ≤ n`
    have hlt : (⌊x⌋ : ℚ) < x := by linarith
    have : ⌊x⌋ < n := by
      by_contra hc
      push_neg at hc
      have : n = ⌊x⌋ := le_antisymm hc hf
      subst this
      have : x ≤ (⌊x⌋ : ℚ) := h
      linarith
    omega
  · exact hf
  · have hlt : (⌊x⌋ : ℚ) < x := by linarith
    have : ⌊x⌋ < n := by
      by_contra hc
      push_neg at hc
      have : n = ⌊x⌋ := le_antisymm hc hf
      subst this
      have : x ≤ (⌊x⌋ : ℚ) := h
      linarith
    omega

theorem round3_nonneg {x : ℚ} (h : 0 ≤ x) : 0 ≤ round3 x := by
  have : (0 : ℤ) ≤ roundHalfEven (1000 * x) := by
    apply roundHalfEven_ge
    push_cast
    linarith
  unfold round3
  have : (0 : ℚ) ≤ (roundHalfEven (1000 * x) : ℚ) := by exact_mod_cast this
  linarith

theorem round3_le_one {x : ℚ} (h : x ≤ 1) : round3 x ≤ 1 := by
  have h1000 : roundHalfEven (1000 * x) ≤ (1000 : ℤ) := by
    apply roundHalfEven_le
    push_cast
    linarith
  unfold round3
  rw [div_le_one (by norm_num)]
  exact_mod_cast h1000

/-! ### Range lemmas for the sub-signals -/

theorem score_content_relevance_mem (parsed : Option ℚ) :
    0 ≤ GroqClient.score_content_relevance parsed ∧
      GroqClient.score_content_relevance parsed ≤ 1 := by
  unfold GroqClient.score_content_relevance
  match parsed with
  | none => norm_num
  | some s =>
    refine ⟨le_max_left 0 _, max_le (by norm_num) (min_le_left 1 s)⟩

theorem freshnessOfAge_mem (d : ℤ) :
    0 ≤ DigestGenerator.freshnessOfAge d ∧ DigestGenerator.freshnessOfAge d ≤ 1 := by
  unfold DigestGenerator.freshnessOfAge
  split_ifs <;> norm_num

theorem calculate_freshness_mem (parseDays : String → Option ℤ) (s : String) :
    0 ≤ DigestGenerator.calculate_freshness parseDays s ∧
      DigestGenerator.calculate_freshness parseDays s ≤ 1 := by
  unfold DigestGenerator.calculate_freshness
  split_ifs
  · norm_num
  · match parseDays s with
    | none => norm_num
    | some d => exact freshnessOfAge_mem d

theorem fusion_round3_mem {s t f : ℚ} (hs0 : 0 ≤ s) (hs1 : s ≤ 1) (ht0 : 0 ≤ t)
    (ht1 : t ≤ 1) (hf0 : 0 ≤ f) (hf1 : f ≤ 1) :
    0 ≤ round3 (2/5 * s + 2/5 * t + 1/5 * f) ∧
      round3 (2/5 * s + 2/5 * t + 1/5 * f) ≤ 1 :=
  ⟨round3_nonneg (by linarith), round3_le_one (by linarith)⟩

/-- C1.  The relevance score equals `round3` of the weighted fusion
`0.4·similarity + 0.4·topicRelevance + 0.2·freshness` of the three
sub-signals, and for every combination of sub-signal values in `[0, 1]`
the rounded fusion — in particular the score itself — lies in `[0, 1]`. -/
theorem relevance_score_formula_and_range (env : Env) (ctx : UserContext)
    (item : ContentItem) (hs : ∀ s, item.similarity = some s → 0 ≤ s ∧ s ≤ 1) :
    DigestGenerator.calculate_relevance_score env ctx item =
      round3 (2/5 * item.similarity.getD (1/2)
        + 2/5 * GroqClient.score_content_relevance
            (env.relevance_reply (item.content.take 500) ctx.current_topics)
        + 1/5 * DigestGenerator.calculate_freshness env.parseDays item.published) ∧
    0 ≤ DigestGenerator.calculate_relevance_score env ctx item ∧
    DigestGenerator.calculate_relevance_score env ctx item ≤ 1 ∧
    ∀ s t f : ℚ, 0 ≤ s → s ≤ 1 → 0 ≤ t → t ≤ 1 → 0 ≤ f → f ≤ 1 →
      0 ≤ round3 (2/5 * s + 2/5 * t + 1/5 * f) ∧
        round3 (2/5 * s + 2/5 * t + 1/5 * f) ≤ 1 := by
  have hsim : 0 ≤ item.similarity.getD (1/2) ∧ item.similarity.getD (1/2) ≤ 1 := by
    match hsome : item.similarity with
    | none => norm_num [Option.getD]
    | some s => simpa using hs s hsome
  have htr := score_content_relevance_mem
    (env.relevance_reply (item.content.take 500) ctx.current_topics)
  have hfr := calculate_freshness_mem env.parseDays item.published
  refine ⟨rfl, ?_, ?_, fun s t f hs0 hs1 ht0 ht1 hf0 hf1 =>
    fusion_round3_mem hs0 hs1 ht0 ht1 hf0 hf1⟩
  · exact (fusion_round3_mem hsim.1 hsim.2 htr.1 htr.2 hfr.1 hfr.2).1
  · exact (fusion_round3_mem hsim.1 hsim.2 htr.1 htr.2 hfr.1 hfr.2).2

/-- Witness for C1: the bounds hold at a concrete item with
similarity `0.6`. -/
theorem relevance_score_formula_and_range_witness :
    0 ≤ DigestGenerator.calculate_relevance_score testEnv testCtx testItem ∧
      DigestGenerator.calculate_relevance_score testEnv testCtx testItem ≤ 1 :=
  ⟨(relevance_score_formula_and_range testEnv testCtx testItem
      (by intro s hsome; injection hsome with h; rw [← h]; norm_num [testItem])).2.1,
   (relevance_score_formula_and_range testEnv testCtx testItem
      (by intro s hsome; injection hsome with h; rw [← h]; norm_num [testItem])).2.2.1⟩

/-- C4.  Case analysis of `_extract_final_output`: with an end marker
present, the stripped content after the last end marker is returned
when non-empty, and the model-only-thinking error string when empty;
with a start marker but no end marker, the incomplete-response error
string; with neither marker, the stripped reply. -/
theorem extract_final_output_cases (text : String) :
    (1 < (Py.split text "</think>").length →
      (Py.strip ((Py.split text "</think>").getLastD "") ≠ "" →
        GroqClient.extract_final_output text =
          Py.strip ((Py.split text "</think>").getLastD "")) ∧
      (Py.strip ((Py.split text "</think>").getLastD "") = "" →
        GroqClient.extract_final_output text =
          "Error: Model only generated thinking process, no insight produced.")) ∧
    (¬ 1 < (Py.split text "</think>").length →
      1 < (Py.split text "<think>").length →
      GroqClient.extract_final_output text =
        "Error: Incomplete response - thinking process not finished.") ∧
    (¬ 1 < (Py.split text "</think>").length →
      ¬ 1 < (Py.split text "<think>").length →
      GroqClient.extract_final_output text = Py.strip text) := by
  refine ⟨fun h1 => ⟨fun h2 => ?_, fun h2 => ?_⟩, fun h1 h3 => ?_, fun h1 h3 => ?_⟩
  · unfold GroqClient.extract_final_output
    rw [if_pos h1, if_pos h2]
  · unfold GroqClient.extract_final_output
    rw [if_pos h1, if_neg (not_not_intro h2)]
  · unfold GroqClient.extract_final_output
    rw [if_neg h1, if_pos h3]
  · unfold GroqClient.extract_final_output
    rw [if_neg h1, if_neg h3]

/-- Witness for C4: the four cases at concrete replies. -/
theorem extract_final_output_cases_witness :
    GroqClient.extract_final_output "<think>plan</think> Use attention. " = "Use attention." ∧
    GroqClient.extract_final_output "<think>plan</think>  " =
      "Error: Model only generated thinking process, no insight produced." ∧
    GroqClient.extract_final_output "<think>still going" =
      "Error: Incomplete response - thinking process not finished." ∧
    GroqClient.extract_final_output " plain reply " = "plain reply" := by
  refine ⟨?_, ?_, ?_, ?_⟩
  · have h := (extract_final_output_cases "<think>plan</think> Use attention. ").1
      (by decide) |>.1 (by decide)
    rw [h]; decide
  · exact (extract_final_output_cases "<think>plan</think>  ").1 (by decide) |>.2 (by decide)
  · exact (extract_final_output_cases "<think>still going").2.1 (by decide) (by decide)
  · have h := (extract_final_output_cases " plain reply ").2.2 (by decide) (by decide)
    rw [h]; decide

/-- C5.  `_calculate_freshness` is the documented step function of the
parsed age in days, is `0.5` on a missing (empty) or unparseable
timestamp (total, so no error can escape), and the step function is
monotonically non-increasing in age. -/
theorem calculate_freshness_step_and_monotone (parseDays : String → Option ℤ)
    (published : String) :
    (published = "" → DigestGenerator.calculate_freshness parseDays published = 1/2) ∧
    (parseDays published = none →
      DigestGenerator.calculate_freshness parseDays published = 1/2) ∧
    (∀ d : ℤ, published ≠ "" → parseDays published = some d →
      DigestGenerator.calculate_freshness parseDays published =
        if d ≤ 0 then 1 else if d ≤ 7 then 9/10 else if d ≤ 30 then 7/10
        else if d ≤ 90 then 2/5 else 1/5) ∧
    (∀ age1 age2 : ℤ, age1 ≤ age2 →
      DigestGenerator.freshnessOfAge age2 ≤ DigestGenerator.freshnessOfAge age1) := by
  refine ⟨fun h => ?_, fun h => ?_, fun d hne h => ?_, fun age1 age2 h => ?_⟩
  · simp [DigestGenerator.calculate_freshness, h]
  · unfold DigestGenerator.calculate_freshness
    split_ifs
    · rfl
    · rw [h]
  · unfold DigestGenerator.calculate_freshness
    rw [if_neg hne, h]
    rfl
  · unfold DigestGenerator.freshnessOfAge
    split_ifs <;> first | omega | norm_num

/-- Witness for C5: the empty-timestamp default and the 3-day-old step
value at a concrete parser. -/
theorem calculate_freshness_step_and_monotone_witness :
    DigestGenerator.calculate_freshness testEnv.parseDays "" = 1/2 ∧
    DigestGenerator.calculate_freshness testEnv.parseDays "2026-01-01" = 9/10 := by
  constructor
  · exact (calculate_freshness_step_and_monotone testEnv.parseDays "").1 rfl
  · have h := (calculate_freshness_step_and_monotone testEnv.parseDays "2026-01-01").2.2.1
      3 (by decide) rfl
    rw [h]; norm_num

/-- C6.  `score_content_relevance`: a reply that parses as a decimal is
clamped into `[0, 1]`; a reply that fails to parse yields exactly `0.5`
(totally, so no error propagates); in both cases the signal — and, when
the similarity score is in range, the fused relevance score — stays in
`[0, 1]`. -/
theorem score_content_relevance_parse_and_range (parsed : Option ℚ) :
    (∀ q, parsed = some q →
      GroqClient.score_content_relevance parsed = max 0 (min 1 q)) ∧
    (parsed = none → GroqClient.score_content_relevance parsed = 1/2) ∧
    (0 ≤ GroqClient.score_content_relevance parsed ∧
      GroqClient.score_content_relevance parsed ≤ 1) ∧
    ∀ (env : Env) (ctx : UserContext) (item : ContentItem),
      env.relevance_reply (item.content.take 500) ctx.current_topics = none →
      (∀ s, item.similarity = some s → 0 ≤ s ∧ s ≤ 1) →
      GroqClient.score_content_relevance
          (env.relevance_reply (item.content.take 500) ctx.current_topics) = 1/2 ∧
        0 ≤ DigestGenerator.calculate_relevance_score env ctx item ∧
        DigestGenerator.calculate_relevance_score env ctx item ≤ 1 := by
  refine ⟨fun q hq => by rw [hq]; rfl, fun hn => by rw [hn]; rfl,
    score_content_relevance_mem parsed, fun env ctx item hnone hs => ?_⟩
  have hsim : 0 ≤ item.similarity.getD (1/2) ∧ item.similarity.getD (1/2) ≤ 1 := by
    match hsome : item.similarity with
    | none => norm_num [Option.getD]
    | some s => simpa using hs s hsome
  have htr := score_content_relevance_mem
    (env.relevance_reply (item.content.take 500) ctx.current_topics)
  have hfr := calculate_freshness_mem env.parseDays item.published
  refine ⟨by rw [hnone]; rfl, ?_, ?_⟩
  · exact (fusion_round3_mem hsim.1 hsim.2 htr.1 htr.2 hfr.1 hfr.2).1
  · exact (fusion_round3_mem hsim.1 hsim.2 htr.1 htr.2 hfr.1 hfr.2).2

/-- An environment whose topic-relevance reply never parses. -/
def testEnvParseFail : Env :=
  { testEnv with relevance_reply := fun _ _ => none }

/-- Witness for C6: at a non-parsing reply the signal is `0.5`, a
parsed reply of `1.7` clamps to `1`, and the fused score at a concrete
item stays in range. -/
theorem score_content_relevance_parse_and_range_witness :
    GroqClient.score_content_relevance none = 1/2 ∧
    GroqClient.score_content_relevance (some (17/10)) = max 0 (min 1 (17/10)) ∧
    0 ≤ DigestGenerator.calculate_relevance_score testEnvParseFail testCtx testItem ∧
    DigestGenerator.calculate_relevance_score testEnvParseFail testCtx testItem ≤ 1 := by
  have h := (score_content_relevance_parse_and_range
      (testEnvParseFail.relevance_reply (testItem.content.take 500)
        testCtx.current_topics)).2.2.2 testEnvParseFail testCtx testItem rfl
      (by intro s hsome; injection hsome with hh; rw [← hh]; norm_num [testItem])
  exact ⟨(score_content_relevance_parse_and_range none).2.1 rfl,
    (score_content_relevance_parse_and_range (some (17/10))).1 (17/10) rfl,
    h.2.1, h.2.2⟩

/-- C2.  With a non-empty query, retrieval first searches at threshold
`0.25` with the requested limit; a second search — at threshold `0.15`
with the same limit — is issued exactly when the primary search returns
zero candidates; never more than two searches are issued. -/
theorem retrieve_threshold_fallback (env : Env) (ctx : UserContext) (top_k : Nat)
    (h : DigestGenerator.queryText ctx ≠ "") :
    (env.search (env.embed (DigestGenerator.queryText ctx)) top_k (1/4) = [] →
      DigestGenerator.retrieve_relevant_content env ctx top_k =
        (env.search (env.embed (DigestGenerator.queryText ctx)) top_k (3/20),
         [⟨top_k, 1/4⟩, ⟨top_k, 3/20⟩])) ∧
    (env.search (env.embed (DigestGenerator.queryText ctx)) top_k (1/4) ≠ [] →
      DigestGenerator.retrieve_relevant_content env ctx top_k =
        (env.search (env.embed (DigestGenerator.queryText ctx)) top_k (1/4),
         [⟨top_k, 1/4⟩])) ∧
    (DigestGenerator.retrieve_relevant_content env ctx top_k).2.head? =
      some ⟨top_k, 1/4⟩ ∧
    ((DigestGenerator.retrieve_relevant_content env ctx top_k).2.length = 2 ↔
      env.search (env.embed (DigestGenerator.queryText ctx)) top_k (1/4) = []) ∧
    (DigestGenerator.retrieve_relevant_content env ctx top_k).2.length ≤ 2 := by
  by_cases hp : env.search (env.embed (DigestGenerator.queryText ctx)) top_k (1/4) = []
  · have hl : (env.search (env.embed (DigestGenerator.queryText ctx)) top_k (1/4)).length = 0 := by
      rw [hp]; rfl
    have hr : DigestGenerator.retrieve_relevant_content env ctx top_k =
        (env.search (env.embed (DigestGenerator.queryText ctx)) top_k (3/20),
         [⟨top_k, 1/4⟩, ⟨top_k, 3/20⟩]) := by
      unfold DigestGenerator.retrieve_relevant_content
      rw [if_neg h, if_pos hl]
    rw [hr]
    exact ⟨fun _ => rfl, fun hc => absurd hp hc, rfl, iff_of_true rfl hp, by norm_num⟩
  · have hl : ¬ (env.search (env.embed (DigestGenerator.queryText ctx)) top_k (1/4)).length = 0 := by
      simpa [List.length_eq_zero] using hp
    have hr : DigestGenerator.retrieve_relevant_content env ctx top_k =
        (env.search (env.embed (DigestGenerator.queryText ctx)) top_k (1/4),
         [⟨top_k, 1/4⟩]) := by
      unfold DigestGenerator.retrieve_relevant_content
      rw [if_neg h, if_neg hl]
    rw [hr]
    exact ⟨fun hc => absurd hc hp, fun _ => rfl, rfl, iff_of_false (by norm_num) hp, by norm_num⟩

/-- Witness for C2: with the concrete environment (whose store returns
one item) only the primary search is issued. -/
theorem retrieve_threshold_fallback_witness :
    DigestGenerator.retrieve_relevant_content testEnv testCtx 15 =
      (testEnv.search (testEnv.embed (DigestGenerator.queryText testCtx)) 15 (1/4),
       [⟨15, 1/4⟩]) ∧
    (DigestGenerator.retrieve_relevant_content testEnv testCtx 15).2.length ≤ 2 :=
  ⟨(retrieve_threshold_fallback testEnv testCtx 15 (by decide)).2.1
      (by simp [testEnv, testItem]),
   (retrieve_threshold_fallback testEnv testCtx 15 (by decide)).2.2.2.2⟩

/-- C7.  With an empty space-joined topic string, retrieval returns an
empty sequence and an empty search trace (no vector-store search is
issued), and the digest build succeeds with an empty insight list. -/
theorem empty_topics_short_circuit (env : Env) (ctx : UserContext) (num : Nat)
    (h : DigestGenerator.queryText ctx = "") :
    (∀ k, DigestGenerator.retrieve_relevant_content env ctx k = ([], [])) ∧
    DigestGenerator.generate_daily_digest env (some ctx) num = .ok (emptyDigest env) := by
  have hret : ∀ k, DigestGenerator.retrieve_relevant_content env ctx k = ([], []) := by
    intro k
    unfold DigestGenerator.retrieve_relevant_content
    rw [if_pos h]
  refine ⟨hret, ?_⟩
  rw [DigestGenerator.generate_daily_digest, hret (num * 2)]
  rfl

/-- Witness for C7: a learner context with no topics. -/
theorem empty_topics_short_circuit_witness :
    DigestGenerator.retrieve_relevant_content testEnv
        { current_week := 1, current_topics := [], learning_goals := "" } 15 = ([], []) ∧
    DigestGenerator.generate_daily_digest testEnv
        (some { current_week := 1, current_topics := [], learning_goals := "" }) 7 =
      .ok (emptyDigest testEnv) :=
  ⟨(empty_topics_short_circuit testEnv
      { current_week := 1, current_topics := [], learning_goals := "" } 7 rfl).1 15,
   (empty_topics_short_circuit testEnv
      { current_week := 1, current_topics := [], learning_goals := "" } 7 rfl).2⟩

/-- C9.  When both the primary and the relaxed search return zero
candidates, the digest build succeeds with the terminal digest: an
empty insight list and the fixed non-empty explanatory summary, and the
server tool reports it with `success = true`. -/
theorem empty_retrieval_terminal_digest (env : Env) (ctx : UserContext) (num : Nat)
    (h1 : env.search (env.embed (DigestGenerator.queryText ctx)) (num * 2) (1/4) = [])
    (h2 : env.search (env.embed (DigestGenerator.queryText ctx)) (num * 2) (3/20) = []) :
    DigestGenerator.generate_daily_digest env (some ctx) num = .ok (emptyDigest env) ∧
    server_generate_daily_digest env (some ctx) num =
      { success := true, digest := some (emptyDigest env), error := none } ∧
    (emptyDigest env).insights = [] ∧
    (emptyDigest env).summary ≠ "" := by
  have hret : (DigestGenerator.retrieve_relevant_content env ctx (num * 2)).1 = [] := by
    unfold DigestGenerator.retrieve_relevant_content
    by_cases hq : DigestGenerator.queryText ctx = ""
    · rw [if_pos hq]
    · rw [if_neg hq, h1]
      simpa using h2
  have hdig : DigestGenerator.generate_daily_digest env (some ctx) num =
      .ok (emptyDigest env) := by
    rw [DigestGenerator.generate_daily_digest, hret]
    rfl
  refine ⟨hdig, ?_, rfl, by simp [emptyDigest]⟩
  unfold server_generate_daily_digest
  rw [hdig]

/-- An environment whose vector store never finds anything. -/
def emptyStoreEnv : Env := { testEnv with search := fun _ _ _ => [] }

/-- Witness for C9: a store that returns nothing at both thresholds. -/
theorem empty_retrieval_terminal_digest_witness :
    DigestGenerator.generate_daily_digest emptyStoreEnv (some testCtx) 7 =
      .ok (emptyDigest emptyStoreEnv) ∧
    (server_generate_daily_digest emptyStoreEnv (some testCtx) 7).success = true :=
  ⟨(empty_retrieval_terminal_digest emptyStoreEnv testCtx 7 rfl rfl).1,
   by rw [(empty_retrieval_terminal_digest emptyStoreEnv testCtx 7 rfl rfl).2.1]⟩

/-- C10.  For an item with no similarity score, the relevance
computation substitutes `0.5` for the similarity sub-signal, while the
insight built for the same item records `similarity_score = 0`. -/
theorem similarity_default_mismatch (env : Env) (ctx : UserContext) (item : ContentItem)
    (h : item.similarity = none) :
    DigestGenerator.calculate_relevance_score env ctx item =
      round3 (2/5 * (1/2)
        + 2/5 * GroqClient.score_content_relevance
            (env.relevance_reply (item.content.take 500) ctx.current_topics)
        + 1/5 * DigestGenerator.calculate_freshness env.parseDays item.published) ∧
    ∀ ins, DigestGenerator.insight_of env ctx item = some ins →
      ins.similarity_score = 0 := by
  constructor
  · unfold DigestGenerator.calculate_relevance_score
    rw [h]
    rfl
  · intro ins hins
    unfold DigestGenerator.insight_of at hins
    match hgen : env.generate_insight item.content ctx with
    | none => rw [hgen] at hins; exact absurd hins (by simp)
    | some t =>
      rw [hgen] at hins
      have := Option.some.inj hins
      rw [← this, h]
      rfl

/-- A concrete content item carrying no similarity score. -/
def testItemNoSim : ContentItem := { testItem with similarity := none }

/-- Witness for C10: the scoring default `0.5` gives a fused score of
`0.66` at the concrete item, while the recorded similarity is `0`. -/
theorem similarity_default_mismatch_witness :
    DigestGenerator.calculate_relevance_score testEnv testCtx testItemNoSim = 33/50 ∧
    (DigestGenerator.insight_of testEnv testCtx testItemNoSim).map
      Insight.similarity_score = some 0 := by
  have hfr : DigestGenerator.calculate_freshness testEnv.parseDays testItemNoSim.published
      = 9/10 := by
    show DigestGenerator.calculate_freshness testEnv.parseDays "2026-01-01" = 9/10
    unfold DigestGenerator.calculate_freshness
    rw [if_neg (by decide : ¬("2026-01-01" = ""))]
    show DigestGenerator.freshnessOfAge 3 = 9/10
    unfold DigestGenerator.freshnessOfAge
    norm_num
  have htr : GroqClient.score_content_relevance
      (testEnv.relevance_reply (testItemNoSim.content.take 500) testCtx.current_topics)
      = 7/10 := by
    show GroqClient.score_content_relevance (some (7/10)) = 7/10
    unfold GroqClient.score_content_relevance
    norm_num
  constructor
  · rw [(similarity_default_mismatch testEnv testCtx testItemNoSim rfl).1, htr, hfr]
    norm_num [round3, roundHalfEven]
  · match hv : DigestGenerator.insight_of testEnv testCtx testItemNoSim with
    | none =>
      exact absurd hv (by simp [DigestGenerator.insight_of, testEnv, testItemNoSim, testItem])
    | some ins =>
      rw [Option.map_some']
      rw [(similarity_default_mismatch testEnv testCtx testItemNoSim rfl).2 ins hv]

theorem relDesc_trans (a b c : Insight) (hab : DigestGenerator.relDesc a b)
    (hbc : DigestGenerator.relDesc b c) : DigestGenerator.relDesc a c := by
  simp only [DigestGenerator.relDesc, decide_eq_true_eq] at hab hbc ⊢
  exact le_trans hbc hab

theorem relDesc_total (a b : Insight) :
    DigestGenerator.relDesc a b || DigestGenerator.relDesc b a := by
  simp only [DigestGenerator.relDesc, Bool.or_eq_true, decide_eq_true_eq]
  exact le_total _ _

/-- C8.  The insight list produced by `generate_insights_from_content`
is sorted by relevance score, descending, and is a stable permutation
of the pre-sort sequence (the insight records in retrieval order): any
two insights with equal scores that appear in a given relative
retrieval order keep that order in the output. -/
theorem insights_sorted_and_stable (env : Env) (items : List ContentItem)
    (ctx : UserContext) (max_insights : Nat) :
    (DigestGenerator.generate_insights_from_content env items ctx max_insights).Pairwise
      (fun a b => b.relevance_score ≤ a.relevance_score) ∧
    (DigestGenerator.generate_insights_from_content env items ctx max_insights).Perm
      ((items.take max_insights).filterMap (DigestGenerator.insight_of env ctx)) ∧
    ∀ a b : Insight, a.relevance_score = b.relevance_score →
      [a, b].Sublist
        ((items.take max_insights).filterMap (DigestGenerator.insight_of env ctx)) →
      [a, b].Sublist
        (DigestGenerator.generate_insights_from_content env items ctx max_insights) := by
  refine ⟨?_, ?_, ?_⟩
  · have hs := List.sorted_mergeSort relDesc_trans relDesc_total
      ((items.take max_insights).filterMap (DigestGenerator.insight_of env ctx))
    unfold DigestGenerator.generate_insights_from_content
    refine hs.imp ?_
    intro a b hab
    simpa [DigestGenerator.relDesc, decide_eq_true_eq] using hab
  · unfold DigestGenerator.generate_insights_from_content
    exact List.mergeSort_perm _ _
  · intro a b hab hsub
    unfold DigestGenerator.generate_insights_from_content
    exact List.pair_sublist_mergeSort relDesc_trans relDesc_total
      (by simp [DigestGenerator.relDesc, hab]) hsub

/-- Witness for C8: the sortedness conjunct at a concrete batch. -/
theorem insights_sorted_and_stable_witness :
    (DigestGenerator.generate_insights_from_content testEnv [testItem, testItemNoSim]
        testCtx 7).Pairwise (fun a b => b.relevance_score ≤ a.relevance_score) :=
  (insights_sorted_and_stable testEnv [testItem, testItemNoSim] testCtx 7).1

theorem insight_of_eq_none (env : Env) (ctx : UserContext) (item : ContentItem)
    (h : DigestGenerator.insight_of env ctx item = none) :
    env.generate_insight item.content ctx = none := by
  unfold DigestGenerator.insight_of at h
  match hg : env.generate_insight item.content ctx with
  | none => rfl
  | some t => rw [hg] at h; exact absurd h (by simp)

/-- C3 (amended).  A successfully built digest never carries more than
`num` insights; it carries none whenever retrieval yielded nothing; and
when it carries none, either retrieval yielded nothing or insight
generation failed for every candidate considered. -/
theorem digest_insight_count_and_empty_conditions (env : Env) (ctx : UserContext)
    (num : Nat) (d : Digest)
    (h : DigestGenerator.generate_daily_digest env (some ctx) num = .ok d) :
    d.insights.length ≤ num ∧
    ((DigestGenerator.retrieve_relevant_content env ctx (num * 2)).1 = [] →
      d.insights = []) ∧
    (d.insights = [] →
      (DigestGenerator.retrieve_relevant_content env ctx (num * 2)).1 = [] ∨
      ∀ item ∈ (DigestGenerator.retrieve_relevant_content env ctx (num * 2)).1.take num,
        env.generate_insight item.content ctx = none) := by
  rw [DigestGenerator.generate_daily_digest] at h
  by_cases hc : ((DigestGenerator.retrieve_relevant_content env ctx (num * 2)).1).length = 0
  · rw [if_pos hc] at h
    have hd : d = emptyDigest env := by
      injection h with h'
      exact h'.symm
    subst hd
    exact ⟨by simp [emptyDigest], fun _ => rfl,
      fun _ => Or.inl (List.length_eq_zero.mp hc)⟩
  · rw [if_neg hc] at h
    have hd : d.insights = DigestGenerator.generate_insights_from_content env
        (DigestGenerator.retrieve_relevant_content env ctx (num * 2)).1 ctx num := by
      injection h with h'
      rw [← h']
    have hlen : (DigestGenerator.generate_insights_from_content env
        (DigestGenerator.retrieve_relevant_content env ctx (num * 2)).1 ctx num).length =
        (((DigestGenerator.retrieve_relevant_content env ctx (num * 2)).1.take
          num).filterMap (DigestGenerator.insight_of env ctx)).length := by
      unfold DigestGenerator.generate_insights_from_content
      exact List.length_mergeSort _
    refine ⟨?_, fun hrc => absurd (by rw [hrc]; rfl) hc, fun hemp => Or.inr ?_⟩
    · rw [hd, hlen]
      calc (((DigestGenerator.retrieve_relevant_content env ctx (num * 2)).1.take
            num).filterMap (DigestGenerator.insight_of env ctx)).length
          ≤ ((DigestGenerator.retrieve_relevant_content env ctx (num * 2)).1.take
            num).length := List.length_filterMap_le _ _
        _ ≤ num := by rw [List.length_take]; exact min_le_left _ _
    · rw [hd] at hemp
      have hfm : (((DigestGenerator.retrieve_relevant_content env ctx (num * 2)).1.take
          num).filterMap (DigestGenerator.insight_of env ctx)) = [] := by
        apply List.eq_nil_of_length_eq_zero
        rw [← hlen, hemp]
        rfl
      intro item hitem
      exact insight_of_eq_none env ctx item (List.filterMap_eq_nil_iff.mp hfm item hitem)

/-- Witness for the amended C3: the bound holds for the terminal digest
built by a store that returns nothing. -/
theorem digest_insight_count_and_empty_conditions_witness :
    (emptyDigest emptyStoreEnv).insights.length ≤ 7 :=
  (digest_insight_count_and_empty_conditions emptyStoreEnv testCtx 7
    (emptyDigest emptyStoreEnv)
    (by rw [DigestGenerator.generate_daily_digest]; rfl)).1

/-- An environment in which insight generation always raises. -/
def failEnv : Env := { testEnv with generate_insight := fun _ _ => none }

/-- Counterexample for C3 as stated: with one retrieved candidate and
an insight-generation call that raises (and is skipped), the built
digest has an empty insight list even though retrieval yielded one
candidate. -/
theorem digest_empty_insights_counterexample :
    (DigestGenerator.retrieve_relevant_content failEnv testCtx (7 * 2)).1.length = 1 ∧
    DigestGenerator.generate_daily_digest failEnv (some testCtx) 7 =
      .ok { date := "2026-10-12T00:00:00", week := some 3,
            topics := ["transformers", "attention"],
            summary := "Summary.", insights := [], total_insights := some 0 } := by
  have hrc : (DigestGenerator.retrieve_relevant_content failEnv testCtx (7 * 2)).1 =
      [testItem] := rfl
  refine ⟨by rw [hrc]; rfl, ?_⟩
  rw [DigestGenerator.generate_daily_digest]
  rw [if_neg (by rw [hrc]; exact one_ne_zero)]
  have hins : DigestGenerator.generate_insights_from_content failEnv
      (DigestGenerator.retrieve_relevant_content failEnv testCtx (7 * 2)).1 testCtx 7 = [] := by
    rw [hrc]
    unfold DigestGenerator.generate_insights_from_content
    rw [show ([testItem].take 7).filterMap (DigestGenerator.insight_of failEnv testCtx)
        = [] from rfl]
    exact List.mergeSort_nil
  rw [hins]
  rfl

end LearningCoach
